import Mathlib

/-!
Verification of the resume-analyzer backend (`src/backend.py`).

The backend is a Flask service.  Its computational core is:
  * `extract_text` - materializes an upload to a temp file, extracts text
    (PDF / DOCX / raw decode) and lowercases it;
  * `calculate_hard_match_score` - keyword-overlap score of a job
    description against a resume, over a fixed 20-term vocabulary;
  * `analyze_with_gemini` - external LLM call, any failure collapsed to a
    fallback record;
  * the score blend `final_score = int(0.4*hard + 0.6*semantic)`;
  * SQLite-backed CRUD handlers over two tables (`job_descriptions`,
    `results`).

Modelling conventions:
  * Python floats are IEEE-754 binary64; the scoring expressions are
    evaluated through an exact model of binary64 rounding (`roundDouble`,
    round-to-nearest, ties to even) over nonnegative fractions represented
    as numerator/denominator pairs of naturals, so theorems about the
    scores are about the numbers the Python code actually produces.
  * Python's `int()` on a nonnegative float is truncation; `pyInt` models it.
  * The regex `\b\w+\b` (`re.findall`) yields the maximal runs of word
    characters; `findall_words` computes exactly those runs.  Word
    characters and `str.lower` are modelled at ASCII granularity
    (`Char.isAlphanum`, underscore, `Char.toLower`), matching the source's
    behaviour on the ASCII texts the vocabulary is drawn from.
  * External effects (file parsing libraries, the network call to the LLM,
    SQLite statement failures) are oracle parameters: each handler model
    takes the outcome of the effect as an argument and reproduces the
    handler's control flow (try/except/finally, commit/rollback, close).
-/

/-! ## Exact binary64 rounding model

A nonnegative fraction is a pair `(a, b) : ℕ × ℕ` standing for `a / b`,
with `b > 0` maintained by construction.  All operations below are plain
natural-number arithmetic. -/

/-- Fuel-driven `⌊log₂ n⌋` (`= 0` for `n ≤ 1`); fuel `400` covers every
number arising here (all are below `2^400`). -/
def natLog2F : ℕ → ℕ → ℕ
  | 0, _ => 0
  | fuel + 1, n => if n ≤ 1 then 0 else natLog2F fuel (n / 2) + 1

/-- `⌊log₂ (a / b)⌋ + 8` for `a, b > 0`, exact whenever `a / b ≥ 2^-8`
(every nonzero value in this development is `≥ 1/20`).  The `+ 8` offset
keeps the result in `ℕ`. -/
def floorLog2Off (a b : ℕ) : ℕ := natLog2F 400 (a * Nat.pow 2 8 / b)

/-- Round the nonnegative fraction `a / b` to the nearest IEEE-754 binary64
value (round to nearest, ties to even), returned as a fraction whose
denominator is a power of two.  The significand is scaled into
`[2^52, 2^53)`, rounded, and scaled back.  Exponent-range handling
(overflow, subnormals) is omitted: every value here is `0` or lies well
inside the normal range. -/
def roundDouble (x : ℕ × ℕ) : ℕ × ℕ :=
  let a := x.1
  let b := x.2
  if a = 0 then (0, 1)
  else
    -- exponent `e` with `a / b ∈ [2^52, 2^53) * 2^e`; `e + 60 = eOff ≥ 0`
    let eOff : ℕ := floorLog2Off a b
    -- significand `m = (a / b) * 2^(60 - eOff)` as the fraction `p / q`
    let p : ℕ := a * Nat.pow 2 (60 - eOff)
    let q : ℕ := b * Nat.pow 2 (eOff - 60)
    let n : ℕ := p / q
    let rem : ℕ := p - n * q
    -- round-half-even: compare `rem / q` with `1 / 2`
    let n' : ℕ :=
      if 2 * rem < q then n
      else if q < 2 * rem then n + 1
      else if n % 2 = 0 then n else n + 1
    (n' * Nat.pow 2 (eOff - 60), Nat.pow 2 (60 - eOff))

/-- Multiply a fraction by a natural number (a Python `float * int`
before its rounding step). -/
def mulNatF (x : ℕ × ℕ) (k : ℕ) : ℕ × ℕ := (x.1 * k, x.2)

/-- Add two fractions (a Python float addition before its rounding step). -/
def addF (x y : ℕ × ℕ) : ℕ × ℕ := (x.1 * y.2 + y.1 * x.2, x.2 * y.2)

/-- Python's `int()` applied to a nonnegative float: truncation. -/
def pyInt (x : ℕ × ℕ) : ℕ := x.1 / x.2

/-- The double literal `0.4` (nearest binary64 to 2/5). -/
def c04 : ℕ × ℕ := roundDouble (2, 5)

/-- The double literal `0.6` (nearest binary64 to 3/5). -/
def c06 : ℕ × ℕ := roundDouble (3, 5)

/-! ## Tokenization: `re.findall(r"\b\w+\b", text)` -/

/-- A regex word character (`\w`), at ASCII granularity. -/
def isWordChar (c : Char) : Bool := c.isAlphanum || c == '_'

/-- Accumulates maximal runs of word characters.  `cur` holds the current
run, reversed. -/
def splitWordsAux : List Char → List Char → List String
  | [], [] => []
  | [], cur => [String.mk cur.reverse]
  | c :: cs, cur =>
    if isWordChar c then splitWordsAux cs (c :: cur)
    else if cur.isEmpty then splitWordsAux cs []
    else String.mk cur.reverse :: splitWordsAux cs []

/-- `re.findall(r"\b\w+\b", s)`: the maximal runs of word characters. -/
def findall_words (s : String) : List String := splitWordsAux s.data []

/-- `str.lower()`, at ASCII granularity. -/
def str_lower (s : String) : String := String.mk (s.data.map Char.toLower)

/-! ## `calculate_hard_match_score` (backend.py lines 98-131) -/

/-- The fixed skills vocabulary (backend.py lines 99-120). -/
def keywords : List String :=
  ["python", "java", "c++", "sql", "javascript", "react", "angular", "vue",
   "machine learning", "data science", "artificial intelligence", "aws",
   "azure", "gcp", "docker", "kubernetes", "api", "git", "agile", "scrum"]

/-- backend.py lines 98-131.  The final expression
`int((len(matched)/len(relevant)) * 100)` is float arithmetic: a rounded
division, a rounded multiplication by 100, then truncation. -/
def calculate_hard_match_score (jd_text resume_text : String) : ℕ :=
  let jd_words := findall_words jd_text
  let resume_words := findall_words resume_text
  let relevant_keywords := keywords.filter (fun k => jd_words.contains k)
  if relevant_keywords.isEmpty then 50
  else
    let matched_keywords := relevant_keywords.filter (fun k => resume_words.contains k)
    pyInt (roundDouble (mulNatF
      (roundDouble (matched_keywords.length, relevant_keywords.length)) 100))

/-! ## The score blend (backend.py line 215) -/

/-- backend.py line 215:
`final_score = int((0.4 * hard_match_score) + (0.6 * semantic_score))`,
with both products and the sum rounded as binary64 operations. -/
def final_score (hard_match_score semantic_score : ℕ) : ℕ :=
  pyInt (roundDouble (addF
    (roundDouble (mulNatF c04 hard_match_score))
    (roundDouble (mulNatF c06 semantic_score))))

/-- Bounded checker for the blend bracket: scans semantic scores
`s < n` for a fixed hard score `h` (kept shallow so kernel evaluation
stays within a small stack depth). -/
def blendRowCheck (h : ℕ) : ℕ → Bool
  | 0 => true
  | s + 1 =>
    Nat.ble ((2 * h + 3 * s) / 5 - 1) (final_score h s)
      && Nat.ble (final_score h s) ((2 * h + 3 * s) / 5)
      && blendRowCheck h s

/-- Bounded checker for the blend bracket over all hard scores `h < n`. -/
def blendAllCheck : ℕ → Bool
  | 0 => true
  | h + 1 => blendRowCheck h 101 && blendAllCheck h

/-! ## `extract_text` (backend.py lines 78-94) -/

/-- Result of the extraction step `extract_text` on a successfully parsed
upload: the format-specific extraction (PyMuPDF page concatenation,
docx2txt, or permissive raw decode, lines 84-91) is an oracle whose output
is `content`; line 94 lowercases it. -/
def extract_text (content : String) : String := str_lower content

/-- Observable outcome of one `extract_text` call: the returned text (none
when an exception propagated) and whether the temp file was unlinked. -/
structure ExtractOutcome where
  text : Option String
  tmp_deleted : Bool
deriving DecidableEq, Repr

/-- Control-flow model of `extract_text` (lines 78-94).  The upload is
written to a `NamedTemporaryFile(delete=False)`; the extraction step is an
oracle that either returns the document text or raises; `os.unlink` (line
93) runs only on the straight-line path after extraction - there is no
try/finally around lines 84-93. -/
def extract_text_run (extraction : Except String String) : ExtractOutcome :=
  match extraction with
  | .ok content => { text := some (extract_text content), tmp_deleted := true }
  | .error _ => { text := none, tmp_deleted := false }

/-! ## `analyze_with_gemini` (backend.py lines 134-168) -/

/-- The structured record the LLM is prompted for (and the shape of the
fallback). -/
structure GeminiRecord where
  semantic_score : ℕ
  verdict : String
  missing_skills : List String
  feedback : String
deriving DecidableEq, Repr

/-- The fallback record built in the `except` branch (lines 163-168). -/
def gemini_fallback : GeminiRecord :=
  { semantic_score := 0
    verdict := "Error"
    missing_skills := []
    feedback := "Could not analyze the resume due to an API or parsing error." }

/-- backend.py lines 134-168.  Everything inside the `try` - credential
lookup, network call, code-fence stripping, JSON parsing - is an oracle
producing either a parsed record or an exception; the `except Exception`
branch converts any exception into `gemini_fallback`. -/
def analyze_with_gemini (callResult : Except String GeminiRecord) : GeminiRecord :=
  match callResult with
  | .ok record => record
  | .error _ => gemini_fallback

/-! ## The database (backend.py lines 19-62) and handlers

`jobs` models the `job_descriptions` table as an association list from the
primary key `job_id` to `jd_text`; `results` models the `results` table in
insertion order (which carries the auto-increment id and timestamp
ordering).  The `missing_skills` column's JSON serialization round-trip
(`json.dumps` on insert, `json.loads` in `get_results`) is modelled away as
a `List String` stored directly.  Response-body message strings are elided
from the response constructors.  Handlers without an oracle parameter model
the success path of their SQL statements; `upload_resume` takes a fault
oracle for its guarded INSERT (lines 226-244) and `get_results` one for its
unguarded SELECT (lines 334-340). -/

/-- A row of the `results` table (auto-increment `id` and `timestamp`
omitted; position in the list plays their role). -/
structure ResultRow where
  student_id : String
  job_id : String
  score : ℕ
  verdict : String
  missing_skills : List String
  feedback : String
deriving DecidableEq, Repr

/-- The two-table store. -/
structure DB where
  jobs : List (String × String)
  results : List ResultRow
deriving DecidableEq, Repr

/-- `SELECT jd_text FROM job_descriptions WHERE job_id = ?` -/
def getJob (db : DB) (job_id : String) : Option String :=
  (db.jobs.find? (fun p => p.1 == job_id)).map (fun p => p.2)

/-- `SELECT job_id FROM job_descriptions ORDER BY job_id ASC`
(the `get_jobs` handler, lines 248-258, success path). -/
def get_jobs_run (db : DB) : List String :=
  (db.jobs.map (fun p => p.1)).mergeSort (fun a b => decide (a ≤ b))

inductive UploadJdResp where
  | ok
  | badRequest
deriving DecidableEq, Repr

/-- `upload_jd` (lines 172-191), success path of the INSERT.  A missing or
falsy (empty) `job_id`, or a missing file, is a 400; otherwise the
extracted lowercased text is upserted under the key (`INSERT OR REPLACE`),
modelled by replacing any existing binding. -/
def upload_jd_run (db : DB) (job_id : Option String) (file : Option String) :
    UploadJdResp × DB :=
  match job_id, file with
  | some jid, some content =>
    if jid = "" then (.badRequest, db)
    else
      (.ok, { db with jobs :=
        (jid, extract_text content) :: db.jobs.filter (fun p => !(p.1 == jid)) })
  | _, _ => (.badRequest, db)

inductive JobDetailsResp where
  | ok (job_id jd_text : String)
  | notFound
deriving DecidableEq, Repr

/-- `get_job_details` (lines 261-276), success path of the SELECT. -/
def get_job_details_run (db : DB) (job_id : String) : JobDetailsResp :=
  match getJob db job_id with
  | some t => .ok job_id t
  | none => .notFound

inductive UpdateJobResp where
  | ok
  | badRequest
  | notFound
deriving DecidableEq, Repr

/-- `update_job` (lines 279-301), success path of the UPDATE.  A missing or
falsy (empty) `jd_text` is a 400; `rowcount == 0` (no job with that key) is
a 404 with the no-op UPDATE uncommitted; otherwise the stored text becomes
`new_text.lower()`. -/
def update_job_run (db : DB) (job_id : String) (jd_text : Option String) :
    UpdateJobResp × DB :=
  match jd_text with
  | none => (.badRequest, db)
  | some t =>
    if t = "" then (.badRequest, db)
    else if (getJob db job_id).isNone then (.notFound, db)
    else
      (.ok,
       { db with
         jobs := db.jobs.map (fun p => if p.1 == job_id then (p.1, str_lower t) else p) })

inductive DeleteJobResp where
  | ok
  | notFound
deriving DecidableEq, Repr

/-- `delete_job` (lines 304-327), success path of the statements: 404 when
the job does not exist, otherwise `DELETE FROM results WHERE job_id = ?`
then `DELETE FROM job_descriptions WHERE job_id = ?`, committed together. -/
def delete_job_run (db : DB) (job_id : String) : DeleteJobResp × DB :=
  match getJob db job_id with
  | none => (.notFound, db)
  | some _ =>
    (.ok,
     { jobs := db.jobs.filter (fun p => !(p.1 == job_id)),
       results := db.results.filter (fun r => !(r.job_id == job_id)) })

inductive UploadResumeResp where
  | badRequest
  | notFound
  | ok (result : ResultRow)
  | raised
deriving DecidableEq, Repr

/-- Outcome of one `upload_resume` request: the response (`raised` when an
exception escaped the handler as an unstructured 500), the committed
database state, and whether the handler left no open connection. -/
structure UploadResumeOutcome where
  resp : UploadResumeResp
  db : DB
  closed : Bool
deriving DecidableEq, Repr

/-- `upload_resume` (lines 194-245).  Falsy inputs are rejected before a
connection is opened (400: `closed` trivially true, no connection exists
yet); the SELECT at lines 204-206 is outside any try block, so a statement
failure there (`selectFault`) propagates with the connection left open;
an unknown `job_id` closes the connection and returns 404; the
`extract_text` call at line 211 is likewise unguarded, so a raising
extraction (`extractFault`, see `extract_text_run`) propagates with the
connection left open; otherwise the handler scores the resume, builds
`result_data`, and runs the guarded INSERT: on `sqlite3.Error`
(`insertFault`) it rolls back - leaving the committed state unchanged -
logs, and still returns `result_data` as a success response; the `finally`
closes the connection on both INSERT paths. -/
def upload_resume_run (db : DB) (student_id job_id : Option String)
    (file : Option String) (selectFault extractFault : Bool)
    (gemini : Except String GeminiRecord)
    (insertFault : Bool) : UploadResumeOutcome :=
  match student_id, job_id, file with
  | some sid, some jid, some content =>
    if sid = "" ∨ jid = "" then { resp := .badRequest, db := db, closed := true }
    else if selectFault then { resp := .raised, db := db, closed := false }
    else
      match getJob db jid with
      | none => { resp := .notFound, db := db, closed := true }
      | some jd_text =>
        if extractFault then { resp := .raised, db := db, closed := false }
        else
          let resume_text := extract_text content
          let hard_match_score := calculate_hard_match_score jd_text resume_text
          let gemini_analysis := analyze_with_gemini gemini
          let score := final_score hard_match_score gemini_analysis.semantic_score
          let row : ResultRow :=
            { student_id := sid, job_id := jid, score := score,
              verdict := gemini_analysis.verdict,
              missing_skills := gemini_analysis.missing_skills,
              feedback := gemini_analysis.feedback }
          if insertFault then { resp := .ok row, db := db, closed := true }
          else { resp := .ok row, db := { db with results := db.results ++ [row] }, closed := true }
  | _, _, _ => { resp := .badRequest, db := db, closed := true }

/-- Outcome of one `get_results` request: the returned rows (`none` when an
exception propagated out of the handler), whether the connection was
closed, and whether an exception escaped. -/
structure GetResultsOutcome where
  rows : Option (List ResultRow)
  closed : Bool
  raised : Bool
deriving DecidableEq, Repr

/-- `get_results` (lines 330-346).  The SELECT is not wrapped in
try/except/finally: on a statement failure (`queryFault`) the exception
propagates and `db.close()` (line 342) is never reached.  On success the
rows are returned ordered by score descending when filtered by a truthy
`job_id`, else by timestamp descending (reverse insertion order). -/
def get_results_run (db : DB) (job_id : Option String) (queryFault : Bool) :
    GetResultsOutcome :=
  if queryFault then { rows := none, closed := false, raised := true }
  else
    match job_id with
    | some j =>
      if j = "" then { rows := some db.results.reverse, closed := true, raised := false }
      else
        { rows := some ((db.results.filter (fun r => r.job_id == j)).mergeSort
            (fun a b => decide (b.score ≤ a.score))),
          closed := true, raised := false }
    | none => { rows := some db.results.reverse, closed := true, raised := false }

/-! ## Tokenizer lemmas -/

/-- Every token `splitWordsAux` emits consists of word characters, provided
the accumulated run does. -/
theorem splitWordsAux_wordChars (cs : List Char) : ∀ (cur : List Char),
    (∀ c ∈ cur, isWordChar c = true) →
    ∀ w ∈ splitWordsAux cs cur, ∀ c ∈ w.data, isWordChar c = true := by
  induction cs with
  | nil =>
    intro cur hcur w hw c hc
    cases cur with
    | nil => simp [splitWordsAux] at hw
    | cons x xs =>
      simp [splitWordsAux] at hw
      subst hw
      have hc' : c ∈ (x :: xs).reverse := by simpa using hc
      exact hcur c (List.mem_reverse.mp hc')
  | cons d ds ih =>
    intro cur hcur w hw c hc
    by_cases hd : isWordChar d
    · rw [splitWordsAux, if_pos hd] at hw
      refine ih (d :: cur) ?_ w hw c hc
      intro c' hc'
      rcases List.mem_cons.mp hc' with h | h
      · subst h; exact hd
      · exact hcur c' h
    · rw [splitWordsAux, if_neg hd] at hw
      cases cur with
      | nil =>
        simp only [List.isEmpty_nil, if_pos] at hw
        exact ih [] (by simp) w hw c hc
      | cons x xs =>
        simp only [List.isEmpty_cons, Bool.false_eq_true, if_false] at hw
        rcases List.mem_cons.mp hw with h | h
        · subst h
          exact hcur c (List.mem_reverse.mp hc)
        · exact ih [] (by simp) w h c hc

/-- Every token of `findall_words` consists of word characters. -/
theorem findall_words_wordChars (s : String) :
    ∀ w ∈ findall_words s, ∀ c ∈ w.data, isWordChar c = true :=
  splitWordsAux_wordChars s.data [] (by simp)

/-- A string holding a non-word character is never a token, so the word
set never contains it. -/
theorem contains_eq_false_of_badChar (s w : String) (c : Char)
    (hc : c ∈ w.data) (hbad : isWordChar c = false) :
    (findall_words s).contains w = false := by
  rw [Bool.eq_false_iff]
  intro h
  have hmem : w ∈ findall_words s := List.elem_iff.mp h
  have := findall_words_wordChars s w hmem c hc
  rw [hbad] at this
  exact Bool.false_ne_true this

/-- From `contains = false` to plain non-membership. -/
theorem not_mem_of_contains_false {w : String} {l : List String}
    (h : l.contains w = false) : w ∉ l := by
  intro hmem
  have : l.contains w = true := List.elem_iff.mpr hmem
  rw [h] at this
  exact Bool.false_ne_true this

/-! ## Hard-match scorer lemmas -/

set_option maxRecDepth 20000 in
set_option maxHeartbeats 1000000 in
/-- The float expression `int((m/r) * 100)` coincides with exact integer
division `100 * m / r` on the whole reachable domain `m ≤ r ≤ 20`
(checked exhaustively through the binary64 model). -/
theorem hard_float_eq_div : ∀ r : ℕ, r < 21 → ∀ m : ℕ, m < 21 → m ≤ r → 0 < r →
    pyInt (roundDouble (mulNatF (roundDouble (m, r)) 100)) = 100 * m / r := by decide

/-- With at least one relevant keyword the score is the truncation of
`100 * matched / relevant`. -/
theorem hard_match_eq_div (jd_text resume_text : String)
    (h : keywords.filter (fun k => (findall_words jd_text).contains k) ≠ []) :
    calculate_hard_match_score jd_text resume_text =
      100 * ((keywords.filter (fun k => (findall_words jd_text).contains k)).filter
          (fun k => (findall_words resume_text).contains k)).length /
        (keywords.filter (fun k => (findall_words jd_text).contains k)).length := by
  have hne : (keywords.filter (fun k => (findall_words jd_text).contains k)).isEmpty = false := by
    rw [List.isEmpty_eq_false]
    exact h
  have hr20 : (keywords.filter (fun k => (findall_words jd_text).contains k)).length ≤ 20 :=
    List.length_filter_le _ _
  have hmr : ((keywords.filter (fun k => (findall_words jd_text).contains k)).filter
      (fun k => (findall_words resume_text).contains k)).length ≤
      (keywords.filter (fun k => (findall_words jd_text).contains k)).length :=
    List.length_filter_le _ _
  have hrpos : 0 < (keywords.filter (fun k => (findall_words jd_text).contains k)).length :=
    List.length_pos.mpr h
  simp only [calculate_hard_match_score, hne, Bool.false_eq_true, if_false]
  exact hard_float_eq_div _ (Nat.lt_succ_of_le hr20) _
    (Nat.lt_succ_of_le (le_trans hmr hr20)) hmr hrpos

/-- The hard-match score never exceeds 100. -/
theorem hard_match_le_100 (jd_text resume_text : String) :
    calculate_hard_match_score jd_text resume_text ≤ 100 := by
  by_cases h : keywords.filter (fun k => (findall_words jd_text).contains k) = []
  · have hemp : (keywords.filter (fun k => (findall_words jd_text).contains k)).isEmpty = true := by
      rw [List.isEmpty_iff]
      exact h
    simp only [calculate_hard_match_score, hemp, if_true]
    omega
  · rw [hard_match_eq_div jd_text resume_text h]
    have hrpos : 0 < (keywords.filter (fun k => (findall_words jd_text).contains k)).length :=
      List.length_pos.mpr h
    calc 100 * ((keywords.filter (fun k => (findall_words jd_text).contains k)).filter
          (fun k => (findall_words resume_text).contains k)).length /
        (keywords.filter (fun k => (findall_words jd_text).contains k)).length
        ≤ 100 * (keywords.filter (fun k => (findall_words jd_text).contains k)).length /
          (keywords.filter (fun k => (findall_words jd_text).contains k)).length :=
          Nat.div_le_div_right (Nat.mul_le_mul_left 100 (List.length_filter_le _ _))
      _ = 100 := Nat.mul_div_cancel 100 hrpos

/-- C1: for every pair of lowercase texts, `calculate_hard_match_score`
returns 50 when no vocabulary term occurs in the job's word set; otherwise
it returns the truncation of `100 * |matched| / |relevant|`, is 100 when
every relevant keyword occurs in the resume's word set, and always lies in
`0..100` (the lower bound holds by the result type). -/
theorem hard_match_score_contract (jd_text resume_text : String) :
    (keywords.filter (fun k => (findall_words jd_text).contains k) = [] →
      calculate_hard_match_score jd_text resume_text = 50)
    ∧ (keywords.filter (fun k => (findall_words jd_text).contains k) ≠ [] →
      calculate_hard_match_score jd_text resume_text =
        100 * ((keywords.filter (fun k => (findall_words jd_text).contains k)).filter
            (fun k => (findall_words resume_text).contains k)).length /
          (keywords.filter (fun k => (findall_words jd_text).contains k)).length)
    ∧ (keywords.filter (fun k => (findall_words jd_text).contains k) ≠ [] →
      (∀ k ∈ keywords.filter (fun k => (findall_words jd_text).contains k),
        (findall_words resume_text).contains k = true) →
      calculate_hard_match_score jd_text resume_text = 100)
    ∧ calculate_hard_match_score jd_text resume_text ≤ 100 := by
  refine ⟨?_, hard_match_eq_div jd_text resume_text, ?_, hard_match_le_100 jd_text resume_text⟩
  · intro h
    have hemp : (keywords.filter (fun k => (findall_words jd_text).contains k)).isEmpty = true := by
      rw [List.isEmpty_iff]; exact h
    simp only [calculate_hard_match_score, hemp, if_true]
  · intro h hall
    rw [hard_match_eq_div jd_text resume_text h, List.filter_eq_self.mpr hall,
      Nat.mul_div_cancel 100 (List.length_pos.mpr h)]

/-- Witness for C1 at concrete inputs: job "python developer", resume
"python" has relevant = ["python"], all matched, so the score is 100. -/
theorem hard_match_score_contract_witness :
    calculate_hard_match_score "python developer" "python" = 100 :=
  (hard_match_score_contract "python developer" "python").2.2.1 (by decide) (by decide)

/-- C9: the spec's worked scenario.  The capitalized texts pass through the
pipeline's lowercasing; then relevant = ["python", "sql"], matched =
["python"], and the score is 50. -/
theorem hard_match_scenario :
    str_lower "Looking for a Python and SQL developer" = "looking for a python and sql developer"
    ∧ keywords.filter (fun k =>
        (findall_words (str_lower "Looking for a Python and SQL developer")).contains k) = ["python", "sql"]
    ∧ (keywords.filter (fun k =>
        (findall_words (str_lower "Looking for a Python and SQL developer")).contains k)).filter
        (fun k => (findall_words (str_lower "I know Python and Java")).contains k) = ["python"]
    ∧ calculate_hard_match_score (str_lower "Looking for a Python and SQL developer")
        (str_lower "I know Python and Java") = 50 := by decide

/-- C10: the tokenizer only produces runs of word characters, so the four
multi-word / symbol-bearing vocabulary terms can never be selected as
relevant keywords; the effective vocabulary is the 16 single-word terms. -/
theorem multiword_keywords_ineffective (jd_text : String) :
    "c++" ∉ findall_words jd_text
    ∧ "machine learning" ∉ findall_words jd_text
    ∧ "data science" ∉ findall_words jd_text
    ∧ "artificial intelligence" ∉ findall_words jd_text
    ∧ keywords.filter (fun k => (findall_words jd_text).contains k) =
      ["python", "java", "sql", "javascript", "react", "angular", "vue", "aws",
       "azure", "gcp", "docker", "kubernetes", "api", "git", "agile", "scrum"].filter
        (fun k => (findall_words jd_text).contains k) := by
  have h1 := contains_eq_false_of_badChar jd_text "c++" '+' (by decide) (by decide)
  have h2 := contains_eq_false_of_badChar jd_text "machine learning" ' ' (by decide) (by decide)
  have h3 := contains_eq_false_of_badChar jd_text "data science" ' ' (by decide) (by decide)
  have h4 := contains_eq_false_of_badChar jd_text "artificial intelligence" ' ' (by decide) (by decide)
  refine ⟨not_mem_of_contains_false h1, not_mem_of_contains_false h2,
    not_mem_of_contains_false h3, not_mem_of_contains_false h4, ?_⟩
  simp only [keywords, List.filter_cons, h1, h2, h3, h4, Bool.false_eq_true, if_false]

/-! ## Score-blend lemmas -/

set_option maxRecDepth 20000 in
set_option maxHeartbeats 400000 in
/-- With semantic score 0 (the fallback), the blend
`int(0.4 * h + 0.6 * 0)` coincides with `2 * h / 5 = ⌊0.4 h⌋` for every
`h ≤ 100` (checked exhaustively through the binary64 model). -/
theorem final_score_sem_zero : ∀ h : ℕ, h < 101 → final_score h 0 = 2 * h / 5 := by decide

/-- A passing row check bounds every semantic score below its fuel. -/
theorem blendRowCheck_sound (h : ℕ) : ∀ n, blendRowCheck h n = true → ∀ s, s < n →
    (2 * h + 3 * s) / 5 - 1 ≤ final_score h s ∧ final_score h s ≤ (2 * h + 3 * s) / 5 := by
  intro n
  induction n with
  | zero => exact fun _ s hs => absurd hs (Nat.not_lt_zero s)
  | succ k ih =>
    intro hchk s hs
    rw [blendRowCheck, Bool.and_eq_true, Bool.and_eq_true] at hchk
    rcases Nat.lt_succ_iff_lt_or_eq.mp hs with h' | rfl
    · exact ih hchk.2 s h'
    · exact ⟨Nat.le_of_ble_eq_true hchk.1.1, Nat.le_of_ble_eq_true hchk.1.2⟩

/-- A passing all-rows check validates every row below its fuel. -/
theorem blendAllCheck_sound : ∀ n, blendAllCheck n = true → ∀ h, h < n →
    blendRowCheck h 101 = true := by
  intro n
  induction n with
  | zero => exact fun _ h hh => absurd hh (Nat.not_lt_zero h)
  | succ k ih =>
    intro hchk h hh
    rw [blendAllCheck, Bool.and_eq_true] at hchk
    rcases Nat.lt_succ_iff_lt_or_eq.mp hh with h' | rfl
    · exact ih hchk.2 h h'
    · exact hchk.1

set_option maxRecDepth 10000 in
set_option maxHeartbeats 16000000 in
/-- The full 101 x 101 sweep of the checker evaluates to `true`. -/
theorem blendAllCheck_101 : blendAllCheck 101 = true := by rfl

/-- Over the whole score domain the blend lies within one below the exact
floor `(2h + 3s) / 5` (checked exhaustively through the binary64 model;
the lower slack is attained, see the counterexample to exact equality). -/
theorem blend_bracket : ∀ h : ℕ, h < 101 → ∀ s : ℕ, s < 101 →
    (2 * h + 3 * s) / 5 - 1 ≤ final_score h s ∧ final_score h s ≤ (2 * h + 3 * s) / 5 :=
  fun h hh s hs =>
    blendRowCheck_sound h 101 (blendAllCheck_sound 101 blendAllCheck_101 h hh) s hs

/-- C2 counterexample: at hard-match score 6 (reachable: 1 of 16 relevant
keywords matched) and semantic score 96, the code computes
`int(0.4*6 + 0.6*96) = int(59.99999999999999) = 59`, while
`⌊0.4*6 + 0.6*96⌋ = ⌊60⌋ = 60` exactly; the blend is not
`floor(0.4*h + 0.6*s)`. -/
theorem final_score_floor_counterexample :
    final_score 6 96 = 59 ∧ ⌊(0.4 * (6 : ℚ) + 0.6 * (96 : ℚ))⌋ = 60 := by
  constructor
  · decide
  · have h : (0.4 * (6 : ℚ) + 0.6 * (96 : ℚ)) = (60 : ℚ) := by norm_num
    rw [h]
    exact_mod_cast Int.floor_intCast (α := ℚ) 60

/-- C2 amended: the exact floor `⌊0.4h + 0.6s⌋` equals `(2h + 3s) / 5`,
and the blended score computed by the code lies within one below it (the
double-rounding can lose exactly 1 when the exact value is an integer, as
at `(6, 96)`); in particular the final score still always lies in
`0..100`. -/
theorem final_score_amended (h s : ℕ) (hh : h ≤ 100) (hs : s ≤ 100) :
    ⌊(0.4 * (h : ℚ) + 0.6 * (s : ℚ))⌋ = ((2 * h + 3 * s) / 5 : ℕ)
    ∧ (2 * h + 3 * s) / 5 - 1 ≤ final_score h s
    ∧ final_score h s ≤ (2 * h + 3 * s) / 5
    ∧ final_score h s ≤ 100 := by
  have hb := blend_bracket h (Nat.lt_succ_of_le hh) s (Nat.lt_succ_of_le hs)
  refine ⟨?_, hb.1, hb.2, le_trans hb.2 ?_⟩
  · have hrw : (0.4 * (h : ℚ) + 0.6 * (s : ℚ)) = ((2 * h + 3 * s : ℕ) : ℚ) / ((5 : ℕ) : ℚ) := by
      push_cast
      ring
    rw [hrw, Rat.floor_natCast_div_natCast]
    exact (Int.natCast_div _ _).symm
  · calc (2 * h + 3 * s) / 5 ≤ 500 / 5 := Nat.div_le_div_right (by omega)
      _ = 100 := by norm_num

/-- Witness for C2's amended theorem at `h = 40`, `s = 70`. -/
theorem final_score_amended_witness :
    ⌊(0.4 * ((40 : ℕ) : ℚ) + 0.6 * ((70 : ℕ) : ℚ))⌋ = ((2 * 40 + 3 * 70) / 5 : ℕ)
    ∧ (2 * 40 + 3 * 70) / 5 - 1 ≤ final_score 40 70
    ∧ final_score 40 70 ≤ (2 * 40 + 3 * 70) / 5
    ∧ final_score 40 70 ≤ 100 :=
  final_score_amended 40 70 (by decide) (by decide)

/-! ## Handler theorems -/

/-- C3: any exception in the semantic analyzer is absorbed into the
fallback record (score 0, verdict "Error", no missing skills, fixed
feedback), and the result record `upload_resume` then builds and persists
carries verdict "Error", semantic contribution 0, and final score
`⌊0.4 * hard⌋ = 2 * hard / 5`. -/
theorem gemini_failure_fallback (e : String) (db : DB) (sid jid content jd_text : String)
    (hsid : sid ≠ "") (hjid : jid ≠ "") (hjob : getJob db jid = some jd_text) :
    analyze_with_gemini (Except.error e) = gemini_fallback
    ∧ (upload_resume_run db (some sid) (some jid) (some content) false false (Except.error e) false).resp
        = .ok { student_id := sid, job_id := jid,
                score := 2 * calculate_hard_match_score jd_text (extract_text content) / 5,
                verdict := "Error", missing_skills := [],
                feedback := "Could not analyze the resume due to an API or parsing error." }
    ∧ (upload_resume_run db (some sid) (some jid) (some content) false false (Except.error e) false).db.results
        = db.results ++
          [{ student_id := sid, job_id := jid,
             score := 2 * calculate_hard_match_score jd_text (extract_text content) / 5,
             verdict := "Error", missing_skills := [],
             feedback := "Could not analyze the resume due to an API or parsing error." }] := by
  have hsc : final_score (calculate_hard_match_score jd_text (extract_text content)) 0 =
      2 * calculate_hard_match_score jd_text (extract_text content) / 5 :=
    final_score_sem_zero _ (Nat.lt_succ_of_le (hard_match_le_100 _ _))
  refine ⟨rfl, ?_, ?_⟩ <;>
    simp [upload_resume_run, hsid, hjid, hjob, analyze_with_gemini, gemini_fallback, hsc]

/-- Witness for C3 at a concrete failing call (missing credential). -/
theorem gemini_failure_fallback_witness :
    analyze_with_gemini (Except.error "GEMINI_API_KEY environment variable not set.")
      = gemini_fallback
    ∧ (upload_resume_run { jobs := [("j1", "python developer")], results := [] }
        (some "s1") (some "j1") (some "I know Python") false false
        (Except.error "GEMINI_API_KEY environment variable not set.") false).resp
        = .ok { student_id := "s1", job_id := "j1",
                score := 2 * calculate_hard_match_score "python developer"
                  (extract_text "I know Python") / 5,
                verdict := "Error", missing_skills := [],
                feedback := "Could not analyze the resume due to an API or parsing error." }
    ∧ (upload_resume_run { jobs := [("j1", "python developer")], results := [] }
        (some "s1") (some "j1") (some "I know Python") false false
        (Except.error "GEMINI_API_KEY environment variable not set.") false).db.results
        = [] ++
          [{ student_id := "s1", job_id := "j1",
             score := 2 * calculate_hard_match_score "python developer"
               (extract_text "I know Python") / 5,
             verdict := "Error", missing_skills := [],
             feedback := "Could not analyze the resume due to an API or parsing error." }] :=
  gemini_failure_fallback _ _ "s1" "j1" _ "python developer" (by decide) (by decide) (by decide)

/-- C4: deleting an unknown job is a 404 that leaves the store unchanged;
deleting an existing job removes it from the job list and removes every
result row referencing it (and only those rows) - no orphaned results
remain. -/
theorem delete_job_cascades (db : DB) (jid : String) :
    (getJob db jid = none → delete_job_run db jid = (.notFound, db))
    ∧ (getJob db jid ≠ none →
        (delete_job_run db jid).1 = .ok
        ∧ getJob (delete_job_run db jid).2 jid = none
        ∧ jid ∉ get_jobs_run (delete_job_run db jid).2
        ∧ (∀ r ∈ (delete_job_run db jid).2.results, r.job_id ≠ jid)
        ∧ (∀ r ∈ db.results, r.job_id ≠ jid → r ∈ (delete_job_run db jid).2.results)) := by
  constructor
  · intro h
    simp [delete_job_run, h]
  · intro h
    obtain ⟨t, ht⟩ := Option.ne_none_iff_exists'.mp h
    simp only [delete_job_run, ht]
    have hnone : (db.jobs.filter (fun p => !(p.1 == jid))).find? (fun p => p.1 == jid) = none := by
      rw [List.find?_eq_none]
      intro x hx
      have hx2 := (List.mem_filter.mp hx).2
      simp only [Bool.not_eq_true'] at hx2
      simp [hx2]
    refine ⟨trivial, ?_, ?_, ?_, ?_⟩
    · simp [getJob, hnone]
    · intro hmem
      simp only [get_jobs_run, List.mem_mergeSort] at hmem
      obtain ⟨p, hp, hpe⟩ := List.mem_map.mp hmem
      have hp2 := (List.mem_filter.mp hp).2
      simp only [Bool.not_eq_true'] at hp2
      rw [hpe] at hp2
      simp at hp2
    · intro r hr he
      have h2 := (List.mem_filter.mp hr).2
      simp only [Bool.not_eq_true'] at h2
      rw [he] at h2
      simp at h2
    · intro r hr hne
      exact List.mem_filter.mpr ⟨hr, by simp [hne]⟩

/-- Witness for C4 on a concrete store with one job and one result. -/
theorem delete_job_cascades_witness :
    (delete_job_run ⟨[("j1", "python")], [⟨"s1", "j1", 40, "Low", [], "f"⟩]⟩ "j1").1 = .ok
    ∧ getJob (delete_job_run ⟨[("j1", "python")], [⟨"s1", "j1", 40, "Low", [], "f"⟩]⟩ "j1").2
        "j1" = none
    ∧ "j1" ∉ get_jobs_run
        (delete_job_run ⟨[("j1", "python")], [⟨"s1", "j1", 40, "Low", [], "f"⟩]⟩ "j1").2
    ∧ (∀ r ∈ (delete_job_run ⟨[("j1", "python")],
        [⟨"s1", "j1", 40, "Low", [], "f"⟩]⟩ "j1").2.results, r.job_id ≠ "j1")
    ∧ (∀ r ∈ (⟨[("j1", "python")], [⟨"s1", "j1", 40, "Low", [], "f"⟩]⟩ : DB).results,
        r.job_id ≠ "j1" →
        r ∈ (delete_job_run ⟨[("j1", "python")],
          [⟨"s1", "j1", 40, "Low", [], "f"⟩]⟩ "j1").2.results) :=
  (delete_job_cascades _ "j1").2 (by decide)

/-- C5: submitting a resume against an unknown job id is a 404 and the
store is unchanged - no result row is inserted.  The 404 return (line 209)
precedes the `extract_text` call (line 211), so the outcome does not
depend on the extraction or INSERT oracles. -/
theorem upload_resume_unknown_job (db : DB) (sid jid content : String)
    (ef : Bool) (g : Except String GeminiRecord) (fault : Bool)
    (hsid : sid ≠ "") (hjid : jid ≠ "") (h : getJob db jid = none) :
    upload_resume_run db (some sid) (some jid) (some content) false ef g fault =
      { resp := .notFound, db := db, closed := true } := by
  simp [upload_resume_run, hsid, hjid, h]

/-- Witness for C5 on the empty store (with a raising extraction, which
the 404 path never reaches). -/
theorem upload_resume_unknown_job_witness :
    upload_resume_run { jobs := [], results := [] } (some "s1") (some "ghost")
        (some "text") false true (Except.error "e") false =
      { resp := .notFound, db := { jobs := [], results := [] }, closed := true } :=
  upload_resume_unknown_job _ "s1" "ghost" "text" true _ false
    (by decide) (by decide) (by decide)

/-- C6: uploading a job then fetching it returns exactly the lowercased
extracted text; updating it then fetching returns the new text
lowercased. -/
theorem job_text_roundtrip (db : DB) (jid content newtext : String) (hjid : jid ≠ "") :
    (upload_jd_run db (some jid) (some content)).1 = .ok
    ∧ get_job_details_run (upload_jd_run db (some jid) (some content)).2 jid =
        .ok jid (extract_text content)
    ∧ (newtext ≠ "" →
        (update_job_run (upload_jd_run db (some jid) (some content)).2 jid (some newtext)).1 = .ok
        ∧ get_job_details_run
            (update_job_run (upload_jd_run db (some jid) (some content)).2 jid (some newtext)).2
            jid = .ok jid (str_lower newtext)) := by
  refine ⟨?_, ?_, fun hnew => ⟨?_, ?_⟩⟩
  · simp [upload_jd_run, hjid]
  · simp [upload_jd_run, hjid, get_job_details_run, getJob, List.find?]
  · simp [upload_jd_run, hjid, update_job_run, hnew, getJob, List.find?]
  · simp [upload_jd_run, hjid, update_job_run, hnew, get_job_details_run, getJob, List.find?]

/-- Witness for C6 on the empty store. -/
theorem job_text_roundtrip_witness :
    (upload_jd_run { jobs := [], results := [] } (some "j1") (some "Python Developer")).1 = .ok
    ∧ get_job_details_run
        (upload_jd_run { jobs := [], results := [] } (some "j1") (some "Python Developer")).2 "j1" =
        .ok "j1" (extract_text "Python Developer")
    ∧ ("Java Developer" ≠ "" →
        (update_job_run
          (upload_jd_run { jobs := [], results := [] } (some "j1") (some "Python Developer")).2
          "j1" (some "Java Developer")).1 = .ok
        ∧ get_job_details_run
            (update_job_run
              (upload_jd_run { jobs := [], results := [] } (some "j1") (some "Python Developer")).2
              "j1" (some "Java Developer")).2
            "j1" = .ok "j1" (str_lower "Java Developer")) :=
  job_text_roundtrip _ "j1" "Python Developer" "Java Developer" (by decide)

/-- C7 counterexample: a failing SELECT in `get_results` propagates out of
the handler with the connection left open (no try/except/finally there);
a failing INSERT in `upload_resume` is rolled back but answered with
the full result record as an apparent success, not an error; and a raising
`extract_text` inside `upload_resume` (line 211, outside any try block)
propagates with that handler's connection left open as well. -/
theorem persistence_unclosed_counterexample :
    (get_results_run { jobs := [], results := [] } none true).closed = false
    ∧ (get_results_run { jobs := [], results := [] } none true).raised = true
    ∧ (upload_resume_run { jobs := [("j1", "python")], results := [] } (some "s1") (some "j1")
        (some "python") false false (Except.error "no key") true).db
        = { jobs := [("j1", "python")], results := [] }
    ∧ (upload_resume_run { jobs := [("j1", "python")], results := [] } (some "s1") (some "j1")
        (some "python") false false (Except.error "no key") true).resp
        = .ok { student_id := "s1", job_id := "j1", score := 40, verdict := "Error",
                missing_skills := [],
                feedback := "Could not analyze the resume due to an API or parsing error." }
    ∧ (upload_resume_run { jobs := [("j1", "python")], results := [] } (some "s1") (some "j1")
        (some "python") false true (Except.error "no key") false).closed = false
    ∧ (upload_resume_run { jobs := [("j1", "python")], results := [] } (some "s1") (some "j1")
        (some "python") false true (Except.error "no key") false).resp = .raised := by
  decide

/-- C7 amended: `get_results` wraps nothing - a failing SELECT propagates
with the connection left open.  `upload_resume` closes its connection on
the paths it controls (the early returns and the guarded INSERT, whose
failure it rolls back yet answers with the result record as an apparent
success) - but its own SELECT and `extract_text` calls are equally
unguarded: a failure in either propagates with the connection left open. -/
theorem persistence_error_handling_amended :
    (∀ (db : DB) (jf : Option String),
      (get_results_run db jf false).closed = true ∧ (get_results_run db jf false).raised = false)
    ∧ (∀ (db : DB) (jf : Option String),
      (get_results_run db jf true).closed = false ∧ (get_results_run db jf true).raised = true
        ∧ (get_results_run db jf true).rows = none)
    ∧ (∀ (db : DB) (sid jid f : Option String) (g : Except String GeminiRecord) (fault : Bool),
      (upload_resume_run db sid jid f false false g fault).closed = true)
    ∧ (∀ (db : DB) (sid jid content : String) (ef : Bool) (g : Except String GeminiRecord)
        (fault : Bool), sid ≠ "" → jid ≠ "" →
      upload_resume_run db (some sid) (some jid) (some content) true ef g fault
        = { resp := .raised, db := db, closed := false })
    ∧ (∀ (db : DB) (sid jid content : String) (g : Except String GeminiRecord) (fault : Bool),
      sid ≠ "" → jid ≠ "" → getJob db jid ≠ none →
      upload_resume_run db (some sid) (some jid) (some content) false true g fault
        = { resp := .raised, db := db, closed := false })
    ∧ (∀ (db : DB) (sid jid content : String) (g : Except String GeminiRecord),
      sid ≠ "" → jid ≠ "" → getJob db jid ≠ none →
      (upload_resume_run db (some sid) (some jid) (some content) false false g true).db = db
        ∧ ∃ row, (upload_resume_run db (some sid) (some jid) (some content)
            false false g true).resp = .ok row) := by
  refine ⟨?_, ?_, ?_, ?_, ?_, ?_⟩
  · intro db jf
    cases jf with
    | none => exact ⟨rfl, rfl⟩
    | some j => by_cases hj : j = "" <;> simp [get_results_run, hj]
  · intro db jf
    exact ⟨rfl, rfl, rfl⟩
  · intro db sid jid f g fault
    rcases sid with _ | s <;> rcases jid with _ | j <;> rcases f with _ | c <;> try rfl
    simp only [upload_resume_run]
    split
    · rfl
    · simp only [Bool.false_eq_true, if_false]
      cases hg : getJob db j with
      | none => simp [hg]
      | some t =>
        simp only [hg, Bool.false_eq_true, if_false]
        cases fault <;> rfl
  · intro db sid jid content ef g fault hsid hjid
    simp [upload_resume_run, hsid, hjid]
  · intro db sid jid content g fault hsid hjid hjob
    obtain ⟨t, ht⟩ := Option.ne_none_iff_exists'.mp hjob
    simp [upload_resume_run, hsid, hjid, ht]
  · intro db sid jid content g hsid hjid hjob
    obtain ⟨t, ht⟩ := Option.ne_none_iff_exists'.mp hjob
    constructor
    · simp [upload_resume_run, hsid, hjid, ht]
    · refine ⟨⟨sid, jid,
          final_score (calculate_hard_match_score t (extract_text content))
            ((analyze_with_gemini g).semantic_score),
          (analyze_with_gemini g).verdict, (analyze_with_gemini g).missing_skills,
          (analyze_with_gemini g).feedback⟩, ?_⟩
      simp [upload_resume_run, hsid, hjid, ht]

/-- Witness for C7's amended theorem on a concrete store and failing
INSERT. -/
theorem persistence_error_handling_amended_witness :
    (upload_resume_run { jobs := [("j1", "python")], results := [] } (some "s1") (some "j1")
        (some "python") false false (Except.error "no key") true).db
      = { jobs := [("j1", "python")], results := [] }
    ∧ ∃ row, (upload_resume_run { jobs := [("j1", "python")], results := [] } (some "s1")
        (some "j1") (some "python") false false (Except.error "no key") true).resp = .ok row :=
  persistence_error_handling_amended.2.2.2.2.2 _ "s1" "j1" "python" _
    (by decide) (by decide) (by decide)

/-- C8 counterexample: when the extraction step raises (say on a corrupt
PDF), `extract_text` reaches no `os.unlink` - there is no try/finally - so
the temp file survives the call. -/
theorem extract_text_tmp_leak_counterexample :
    (extract_text_run (Except.error "mupdf cannot open file")).tmp_deleted = false
    ∧ (extract_text_run (Except.error "mupdf cannot open file")).text = none :=
  ⟨rfl, rfl⟩

/-- C8 amended: the temp file is unlinked on the success path (and the
lowercased text returned), but when any extraction step raises, the
exception propagates and the temp file is left behind. -/
theorem extract_text_tmp_cleanup_amended :
    (∀ content : String,
      (extract_text_run (Except.ok content)).tmp_deleted = true
      ∧ (extract_text_run (Except.ok content)).text = some (extract_text content))
    ∧ (∀ err : String, (extract_text_run (Except.error err)).tmp_deleted = false) :=
  ⟨fun _ => ⟨rfl, rfl⟩, fun _ => rfl⟩
